import Mathlib

/-!
Verification development for the jskit-auth-client repository.

Shallow embedding of the session store (src/stores/userState.js, shipped as
src/unnamed/part_007), the axios auth interceptor (src/unnamed/part_003),
the auth configuration helpers (src/src/config/auth.js), the supabase
normalizer (src/src/auth/normalizers/supabase.js), the supabase provider
(src/unnamed/part_004) and the linking session snapshot
(src/src/linking/sessionSnapshot.js).

JavaScript conventions used throughout the embedding:
  - a possibly-absent value is `Option`; `none` stands for null/undefined;
  - JS string truthiness (empty string is falsy) is `strTruthy` / `jsOrS`;
  - machine time is `Nat` milliseconds.
-/

namespace JskitAuth

/-- JS truthiness of a possibly-absent string: null/undefined and the empty
string are falsy. -/
def strTruthy : Option String → Bool
  | some s => s != ""
  | none => false

/-- JS `a || b` on possibly-absent strings: keep `a` when it is truthy,
otherwise return `b` unchanged (which may itself be falsy, as in JS). -/
def jsOrS (a b : Option String) : Option String :=
  if strTruthy a then a else b

/-- JS `a || dflt` where the overall result is used as a string and `dflt`
is a string literal. -/
def getS (a : Option String) (dflt : String) : String :=
  match a with
  | some s => if s != "" then s else dflt
  | none => dflt

/-- `email.split('@')[0]`: the part of the string before the first `@`
(the whole string when there is no `@`). -/
def localPart (s : String) : String :=
  String.mk (s.data.takeWhile (fun c => c ≠ '@'))

/-! ## CircuitBreaker (src/src/config/auth.js lines 265-325) -/

/-- `authConfig.errorHandling.recovery.circuitBreaker` shape. -/
structure CBConfig where
  enabled : Bool
  threshold : Nat
  timeout : Nat
  halfOpenRequests : Nat
deriving DecidableEq, Repr

/-- The configured instance: threshold 5, timeout 60000 ms, 3 half-open
trial requests (src/src/config/auth.js lines 144-151). -/
def circuitBreakerConfig : CBConfig :=
  { enabled := true, threshold := 5, timeout := 60000, halfOpenRequests := 3 }

inductive CBStatus
  | closed
  | open
  | halfOpen
deriving DecidableEq, Repr

/-- Mutable fields of the `CircuitBreaker` class.  `lastFailureTime` is
null initially and only read while the breaker is open, after it has been
set by a failure. -/
structure CBState where
  state : CBStatus
  failures : Nat
  lastFailureTime : Option Nat
  successCount : Nat
deriving DecidableEq, Repr

/-- Constructor state of `CircuitBreaker` (also the state after `reset()`). -/
def cbInit : CBState :=
  { state := .closed, failures := 0, lastFailureTime := none, successCount := 0 }

/-- Result of one `execute(fn)` call: either the call was denied with the
wrapped operation never invoked, or the operation ran and succeeded /
failed. -/
inductive CBResult
  | denied
  | passed
  | failedR
deriving DecidableEq, Repr

/-- One `execute(fn)` call of the `CircuitBreaker` class, with the outcome
of the wrapped operation supplied as `ok` and the current clock as `now`.
Follows src/src/config/auth.js lines 275-317 line by line: a disabled
breaker is a pass-through; an open breaker transitions to half-open once
`now - lastFailureTime > timeout` and otherwise denies without invoking
the operation; a half-open success increments the trial counter and closes
the breaker (resetting `failures` to 0) at `halfOpenRequests` successes; a
closed success decrements `failures` with floor 0; any failure increments
`failures`, stamps `lastFailureTime` and opens the breaker once
`failures >= threshold`. -/
def cbExecute (cfg : CBConfig) (s : CBState) (now : Nat) (ok : Bool) :
    CBState × CBResult :=
  if !cfg.enabled then
    (s, if ok then .passed else .failedR)
  else
    -- open-state check (lines 281-289)
    let gate : CBState × Bool :=
      if s.state = .open then
        if now - s.lastFailureTime.getD 0 > cfg.timeout then
          ({ s with state := .halfOpen, successCount := 0 }, true)
        else
          (s, false)
      else (s, true)
    if gate.2 = false then
      (gate.1, .denied)
    else
      let s1 := gate.1
      if ok then
        -- success path (lines 294-303)
        if s1.state = .halfOpen then
          let sc := s1.successCount + 1
          if sc ≥ cfg.halfOpenRequests then
            ({ s1 with state := .closed, failures := 0, successCount := sc }, .passed)
          else
            ({ s1 with successCount := sc }, .passed)
        else if s1.state = .closed then
          ({ s1 with failures := s1.failures - 1 }, .passed)
        else
          (s1, .passed)
      else
        -- failure path (lines 306-316)
        let f := s1.failures + 1
        let s2 := { s1 with failures := f, lastFailureTime := some now }
        if f ≥ cfg.threshold then
          ({ s2 with state := .open }, .failedR)
        else
          (s2, .failedR)

/-- Run a sequence of `execute` calls, each given as (clock, outcome). -/
def cbRun (cfg : CBConfig) (s : CBState) (evs : List (Nat × Bool)) : CBState :=
  evs.foldl (fun st ev => (cbExecute cfg st ev.1 ev.2).1) s

/-! ## Rate limiter (src/src/config/auth.js lines 237-262) -/

structure RLLimits where
  max : Nat
  window : Nat
deriving DecidableEq, Repr

/-- `authConfig.rateLimiting.requests` (lines 157-162).  The `profile`
action used by `fetchProfile` is NOT configured, so rate limiting never
denies it. -/
def rlRequests : String → Option RLLimits
  | "login" => some { max := 5, window := 300000 }
  | "signup" => some { max := 3, window := 600000 }
  | "passwordReset" => some { max := 3, window := 3600000 }
  | "tokenRefresh" => some { max := 10, window := 60000 }
  | _ => none

/-- `authConfig.rateLimiting.enabled` (line 156). -/
def rateLimitingEnabled : Bool := true

/-- Backing store for one rate-limit key.  `data = none` models
`getItem`/`JSON.parse` throwing (or returning unparsable data);
`writeFails` models `setItem` throwing. -/
structure RLStorage where
  data : Option (List Nat)
  writeFails : Bool
deriving DecidableEq, Repr

/-- `checkRateLimit(action)` (lines 237-262).  Reads the persisted
timestamps, keeps those with `now - time < window`, denies when at least
`max` remain (without persisting anything), otherwise appends `now` and
persists; any storage exception is caught and the call is allowed with
the persisted data unchanged. -/
def checkRateLimit (action : String) (st : RLStorage) (now : Nat) :
    Bool × RLStorage :=
  if !rateLimitingEnabled then (true, st)
  else
    match rlRequests action with
    | none => (true, st)
    | some lim =>
      match st.data with
      | none => (true, st)
      | some data =>
        let recent := data.filter (fun t => now - t < lim.window)
        if recent.length ≥ lim.max then
          (false, st)
        else if st.writeFails then
          (true, st)
        else
          (true, { st with data := some (recent ++ [now]) })

/-- Thread a list of call times through `checkRateLimit`, collecting the
allow/deny answers in order. -/
def rlRun (action : String) (st : RLStorage) (times : List Nat) :
    List Bool × RLStorage :=
  match times with
  | [] => ([], st)
  | t :: ts =>
    let r := checkRateLimit action st t
    let rest := rlRun action r.2 ts
    (r.1 :: rest.1, rest.2)

/-! ## Interceptor retry delays (src/unnamed/part_003) -/

/-- `INTERCEPTOR_CONFIG` (lines 42-50), the fields the retry-delay logic
reads. -/
def interceptorMaxRetries : Nat := 3
def interceptorRetryDelay : Nat := 1000
def interceptorBackoffMultiplier : Nat := 2

/-- The `Retry-After` response header, after the interceptor converted it
to milliseconds: a numeric header is `parseInt(retryAfter) * 1000`; a date
header is `new Date(retryAfter).getTime() - Date.now()`, which may be
negative. -/
inductive RetryAfterMs
  | fromSeconds (n : Nat)
  | fromDate (diffMs : Int)
deriving DecidableEq, Repr

/-- The fields of an axios error object read by `categorizeError`,
`shouldRetry` and `getRetryDelay` (lines 70-262). -/
structure HttpError where
  hasResponse : Bool
  status : Nat
  codeEconnaborted : Bool
  messageHasTimeout : Bool
  retryAfter : Option RetryAfterMs
deriving DecidableEq, Repr

/-- `categorizeError(error)` (lines 70-92). -/
def categorizeError (e : HttpError) : String :=
  if !e.hasResponse then
    if e.codeEconnaborted || e.messageHasTimeout then "timeout_error"
    else "network_error"
  else if e.status = 401 || e.status = 403 then "auth_error"
  else if e.status = 429 then "rate_limit_error"
  else if 400 ≤ e.status ∧ e.status < 500 then "client_error"
  else if 500 ≤ e.status then "server_error"
  else "unknown_error"

/-- `calculateRetryDelay(retryCount, baseDelay)` (lines 96-99) with the
random jitter (`Math.random() * 200`) made an explicit argument.
`baseDelay * backoffMultiplier ^ (retryCount - 1) + jitter`. -/
def calculateRetryDelay (retryCount : Nat) (jitter : Nat) : Nat :=
  interceptorRetryDelay * interceptorBackoffMultiplier ^ (retryCount - 1) + jitter

/-- `getRetryDelay(error, retryCount)` (lines 242-262) with the jitter of
the non-rate-limit path made explicit.  A rate-limited error prefers the
server `Retry-After` value capped at 60000 ms and falls back to
`5000 * retryCount`; every other category uses the exponential backoff. -/
def getRetryDelay (e : HttpError) (retryCount : Nat) (jitter : Nat) : Int :=
  if categorizeError e = "rate_limit_error" then
    match e.retryAfter with
    | some (.fromSeconds n) => min ((n : Int) * 1000) 60000
    | some (.fromDate d) => min d 60000
    | none => (5000 : Int) * retryCount
  else
    (calculateRetryDelay retryCount jitter : Int)

/-- `authConfig.timeouts.maxRetryDelay` (src/src/config/auth.js line 43):
the only configured "maximum retry delay" in the repository.  The
interceptor itself never reads it. -/
def maxRetryDelayConfig : Nat := 30000

/-! ## Sessions and the supabase normalizer
(src/src/auth/normalizers/supabase.js) -/

/-- The metadata object read from `raw_user_meta_data` / `user_metadata`
(src/src/auth/normalizers/supabase.js lines 6-20, 48-54). -/
structure RawUserMeta where
  full_name : Option String := none
  name : Option String := none
  display_name : Option String := none
  avatar_url : Option String := none
  picture : Option String := none
  profile_picture : Option String := none
deriving DecidableEq, Repr

def emptyMeta : RawUserMeta := {}

/-- The decoded JWT payload fields read by `normalizeSupabaseToken`. -/
structure TokenPayload where
  email : Option String := none
  email_verified : Bool := false
  name : Option String := none
  picture : Option String := none
  phone : Option String := none
  is_anonymous : Bool := false
  role : Option String := none
  sub : Option String := none
  raw_user_meta_data : Option RawUserMeta := none
  user_metadata : Option RawUserMeta := none
deriving DecidableEq, Repr

/-- An access-token string: either a JWT whose payload section decodes
(base64 + JSON) to `payload`, or any other string, for which the decode
attempt of `normalizeSupabaseSession` (lines 34-40) throws and is caught. -/
inductive AccessToken
  | jwt (payload : TokenPayload)
  | plain (s : String)
deriving DecidableEq, Repr

/-- Lines 33-40 of the normalizer: try to decode the token payload,
`null` on any failure (including an absent token). -/
def decodeAccessToken : Option AccessToken → Option TokenPayload
  | some (.jwt p) => some p
  | _ => none

/-- JS truthiness of the access-token field (`if (userStore.token)` and
similar guards): absent and the empty string are falsy. -/
def accessTokenTruthy : Option AccessToken → Bool
  | some (.jwt _) => true
  | some (.plain s) => s != ""
  | none => false

/-- A user object as it appears on a session: both the raw provider user
(`session.user`, with `user_metadata`) and the user produced by the
normalizer live in this shape; fields a given object does not carry are
`none`. -/
structure SessionUser where
  email : Option String := none
  email_verified : Bool := false
  name : Option String := none
  user_metadata : Option RawUserMeta := none
  is_anonymous : Bool := false
  phone : Option String := none
  role : Option String := none
  avatar_url : Option String := none
  raw_metadata : Option RawUserMeta := none
  created_at : Option String := none
  updated_at : Option String := none
  id : Option String := none
deriving DecidableEq, Repr

/-- A session object, covering both raw provider sessions and normalized
sessions (the store feeds normalized sessions back through
`normalizeSession` when restoring a linking snapshot).  `token` is the
alternative credential field read by the local provider's normalizer
(`access_token || token`); `raw_attached` records whether a `raw` field
holding the original raw session is present on the object — the local
normalizer attaches one, nothing in the embedded operations ever reads
it, and a structure cannot nest itself, so only its presence is kept. -/
structure Session where
  access_token : Option AccessToken := none
  refresh_token : Option String := none
  expires_at : Option Nat := none
  expires_in : Option Nat := none
  token_type : Option String := none
  provider : Option String := none
  provider_id : Option String := none
  user : Option SessionUser := none
  is_anonymous : Bool := false
  isAnonymous : Option Bool := none
  _provider : Option String := none
  token : Option AccessToken := none
  raw_attached : Bool := false
deriving DecidableEq, Repr

/-- First truthy string of the list, else the supplied final operand
(models a `||` chain whose last operand is already a string). -/
def jsChain (xs : List (Option String)) (tail : String) : String :=
  match xs with
  | [] => tail
  | x :: rest => if strTruthy x then x.getD "" else jsChain rest tail

/-- `normalizeSupabaseToken(decodedToken)`
(src/src/auth/normalizers/supabase.js lines 1-26). -/
def normalizeSupabaseToken (p : TokenPayload) : SessionUser :=
  let metadata := (p.raw_user_meta_data.orElse (fun _ => p.user_metadata)).getD emptyMeta
  let nameTail : String :=
    match p.email with
    | some e => if e != "" then localPart e else "User"
    | none => "User"
  { email := jsOrS p.email none
    email_verified := p.email_verified
    name := some (jsChain [metadata.full_name, metadata.name,
      metadata.display_name, p.name] nameTail)
    avatar_url := jsOrS metadata.avatar_url (jsOrS metadata.picture
      (jsOrS metadata.profile_picture (jsOrS p.picture none)))
    phone := jsOrS p.phone none
    is_anonymous := p.is_anonymous
    role := some (getS p.role "authenticated")
    raw_metadata := some metadata }

/-- The `session.user` fallback branch of `normalizeSupabaseSession`
(lines 46-61), taken when the token payload did not decode. -/
def normalizeSupabaseUserFallback (u : SessionUser) : SessionUser :=
  let metadata := u.user_metadata.getD emptyMeta
  { email := u.email
    email_verified := u.email_verified
    name := some (jsChain [metadata.full_name, metadata.name]
      (match u.email with
       | some e => if e != "" then localPart e else "User"
       | none => "User"))
    avatar_url := jsOrS metadata.avatar_url (jsOrS metadata.picture none)
    is_anonymous := u.is_anonymous
    phone := jsOrS u.phone none
    role := some (getS u.role "authenticated")
    created_at := u.created_at
    updated_at := u.updated_at }

/-- `normalizeSupabaseSession(session)` on a non-null session
(src/src/auth/normalizers/supabase.js lines 28-74). -/
def normalizeSupabaseSessionCore (s : Session) : Session :=
  let decodedToken := decodeAccessToken s.access_token
  let normalizedUser : Option SessionUser :=
    match decodedToken with
    | some p => some (normalizeSupabaseToken p)
    | none =>
      match s.user with
      | some u => some (normalizeSupabaseUserFallback u)
      | none => none
  { access_token := s.access_token
    refresh_token := s.refresh_token
    expires_at := s.expires_at
    expires_in := s.expires_in
    token_type := some (getS s.token_type "Bearer")
    provider := some "supabase"
    provider_id := jsOrS (decodedToken.bind (fun p => p.sub))
      (s.user.bind (fun u => u.id))
    user := normalizedUser
    is_anonymous := (normalizedUser.map (fun u => u.is_anonymous)).getD false }

/-- `normalizeSupabaseSession` including the null guard (lines 29-31). -/
def normalizeSupabaseSession : Option Session → Option Session
  | none => none
  | some s => some (normalizeSupabaseSessionCore s)

/-- `normalizeGoogleSession(session)` is the identity
(src/src/auth/normalizers/google side of the normalizers file,
`return session`). -/
def normalizeGoogleSession (s : Session) : Session := s

/-- `localAuthProvider.normalizeSession(rawSession)`
(src/src/auth/providers/google/provider.js, third bundled document,
lines 508-519).  The null guard is handled by the caller (`setSession`
only reaches a normalizer with a non-null raw session).  The session is
rebuilt with `access_token || token` (JS truthiness), the user carried
over (`user || null` keeps an absent user absent), `isAnonymous` forced
to true, provider `local`, `expires_at` carried over, and the whole raw
session attached under `raw` (recorded as `raw_attached`; nothing reads
it).  No claim proved below exercises this branch. -/
def normalizeLocalSession (s : Session) : Session :=
  { access_token :=
      if accessTokenTruthy s.access_token then s.access_token else s.token
    user := s.user
    isAnonymous := some true
    provider := some "local"
    expires_at := s.expires_at
    raw_attached := true }

/-- Providers registered by the store module imports
(src/unnamed/part_007 lines 8-10). -/
def knownProviders : List String := ["supabase", "google", "local"]

/-- `getAuthProvider(name)` viewed as membership of the registry. -/
def hasAuthProvider (name : String) : Bool :=
  knownProviders.contains name

/-- Dispatch of `authProvider.normalizeSession(rawSession)` for a known
provider name. -/
def normalizeFor (provider : String) (s : Session) : Session :=
  if provider = "supabase" then normalizeSupabaseSessionCore s
  else if provider = "google" then normalizeGoogleSession s
  else normalizeLocalSession s

/-! ## The user-state store (src/unnamed/part_007, src/stores/userState.js) -/

/-- The reactive `errorState` object (lines 36-43).  `errorDetails` is an
arbitrary object in JS; the embedding keeps the one string the claims
inspect (the offending provider name). -/
structure ErrorState where
  hasError : Bool := false
  errorType : Option String := none
  errorMessage : Option String := none
  errorDetails : Option String := none
  retryCount : Nat := 0
  lastErrorTime : Option Nat := none
deriving DecidableEq, Repr

/-- The reactive `sessionHealth` object (lines 46-51).
`nextRefreshTime` is `expires_at * 1000 - 60000` and may be negative, so
it is an `Int`. -/
structure SessionHealth where
  lastCheck : Option Nat := none
  isHealthy : Bool := true
  failureCount : Nat := 0
  nextRefreshTime : Option Int := none
deriving DecidableEq, Repr

/-- The `/api/auth/me` response payload fields read by `fetchProfile`
(lines 296-302).  The user record itself is opaque to the store. -/
structure ProfilePayload where
  user : Option String := none
  linked_providers : Option (List (String × String)) := none
  provider : Option String := none
  provider_id : Option String := none
deriving DecidableEq, Repr

/-- `payload.user || payload`: the profile value stored is either the
nested user object or, when it is absent, the whole payload. -/
inductive ProfileVal
  | userObj (u : String)
  | payloadObj (p : ProfilePayload)
deriving DecidableEq, Repr

/-- The store state: session/profile refs, default axios headers
(`Authorization` as the bearer token, `X-Auth-Provider`), error and
health state, and the three module-level circuit breakers from
src/src/config/auth.js lines 328-332. -/
structure StoreState where
  normalizedSession : Option Session := none
  profile : Option ProfileVal := none
  linkedProviders : List (String × String) := []
  profileProvider : Option String := none
  profileProviderId : Option String := none
  loading : Bool := false
  errorState : ErrorState := {}
  sessionHealth : SessionHealth := {}
  authHeader : Option AccessToken := none
  xAuthProviderHeader : Option String := none
  cbAuth : CBState := cbInit
  cbTokenRefresh : CBState := cbInit
  cbProfile : CBState := cbInit
deriving DecidableEq, Repr

/-- The `token` computed ref: `normalizedSession.value?.access_token`. -/
def storeToken (st : StoreState) : Option AccessToken :=
  st.normalizedSession.bind (fun s => s.access_token)

/-- The `currentProvider` computed ref:
`normalizedSession.value?.provider`. -/
def storeCurrentProvider (st : StoreState) : Option String :=
  st.normalizedSession.bind (fun s => s.provider)

/-- The `isAnonymous` computed ref:
`normalizedSession.value?.isAnonymous || false`. -/
def storeIsAnonymous (st : StoreState) : Bool :=
  (st.normalizedSession.bind (fun s => s.isAnonymous)).getD false

/-- `clearError()` (lines 85-91). -/
def clearError (st : StoreState) : StoreState :=
  { st with
    errorState := { st.errorState with
                    hasError := false
                    errorType := none
                    errorMessage := none
                    errorDetails := none
                    retryCount := 0 } }

/-- `setError(type, message, details)` (lines 62-83); the error-tracking
side channel performs no state change. -/
def setError (st : StoreState) (type : String) (message : String)
    (details : Option String) (now : Nat) : StoreState :=
  { st with
    errorState := { st.errorState with
                    hasError := true
                    errorType := some type
                    errorMessage := some message
                    errorDetails := details
                    lastErrorTime := some now } }

/-- `authConfig.defaultProvider`
(src/src/config/auth.js line 9, with the environment override absent). -/
def defaultProvider : String := "supabase"

/-- Provider resolution in `setSession` (line 189):
`providerName || rawSession._provider || authConfig.defaultProvider || 'none'`. -/
def resolveProvider (providerName : Option String) (raw : Session) : String :=
  getS (jsOrS providerName (jsOrS raw._provider (some defaultProvider))) "none"

/-- `setSession(rawSession, providerName)` (lines 172-260).  `now` is the
clock read by `sessionHealth.lastCheck` / `setError`.  The
`cacheSessionMeta` best-effort call changes no store state (the supabase
and google providers do not implement it, so `callAuthProviderMethod`
returns null).  The surrounding try/catch is not modelled: no operation
on this path throws for the inputs representable here, so the
`SESSION_INVALID` catch branch is unreachable. -/
def setSession (st : StoreState) (rawSession : Option Session)
    (providerName : Option String) (now : Nat) : StoreState × Bool :=
  let st := clearError st
  match rawSession with
  | none =>
    ({ st with
       normalizedSession := none
       profile := none
       linkedProviders := []
       profileProvider := none
       profileProviderId := none
       authHeader := none
       sessionHealth := { st.sessionHealth with
                          isHealthy := true
                          failureCount := 0 } }, true)
  | some raw =>
    let provider := resolveProvider providerName raw
    if !hasAuthProvider provider then
      let st := setError st "provider_not_found"
        ("Authentication provider " ++ provider ++ " not found")
        (some provider) now
      ({ st with normalizedSession := none }, false)
    else
      let ns := normalizeFor provider raw
      let st := { st with normalizedSession := some ns }
      let st :=
        if accessTokenTruthy ns.access_token then
          { st with
            authHeader := ns.access_token
            xAuthProviderHeader := some provider }
        else
          { st with authHeader := none, xAuthProviderHeader := none }
      let health0 := { st.sessionHealth with
                       isHealthy := true
                       failureCount := 0
                       lastCheck := some now }
      let health :=
        match ns.expires_at with
        | some e => { health0 with nextRefreshTime := some ((e : Int) * 1000 - 60000) }
        | none => health0
      ({ st with sessionHealth := health }, true)

/-- `signOut()` (lines 464-519).  The best-effort provider sign-out is a
single `withRetry(..., 'auth', 1)` attempt routed through the `auth`
circuit breaker; `providerFails` says whether the provider call would
throw.  Whatever happens there is caught by the inner catch (line 478),
after which the local state is cleared unconditionally and every circuit
breaker is reset; the outer catch (line 503) is unreachable because none
of the clearing statements can throw. -/
def signOut (st : StoreState) (providerFails : Bool) (now : Nat) :
    StoreState × Bool :=
  let st := { st with loading := true }
  let st := clearError st
  let provider := storeCurrentProvider st
  let st :=
    if strTruthy provider then
      let st := clearError st
      let ok := !providerFails
      let r := cbExecute circuitBreakerConfig st.cbAuth now ok
      let st := { st with cbAuth := r.1 }
      match r.2 with
      | .passed => st
      | _ => { st with errorState := { st.errorState with retryCount := 1 } }
    else st
  let st := { st with
    normalizedSession := none
    profile := none
    linkedProviders := []
    profileProvider := none
    profileProviderId := none
    authHeader := none
    xAuthProviderHeader := none
    sessionHealth := { lastCheck := none, isHealthy := true,
                       failureCount := 0, nextRefreshTime := none }
    cbAuth := cbInit
    cbTokenRefresh := cbInit
    cbProfile := cbInit }
  ({ st with loading := false }, true)

/-- The axios error fields read by the store and the interceptor retry
logic: `error.response?.status`, `error.code === 'ECONNABORTED'`,
`error.message?.includes('timeout')`.  The default value models the
"Circuit breaker is open" error thrown by a denied breaker (no response,
no timeout text). -/
structure ReqError where
  hasResponse : Bool := false
  status : Nat := 0
  econnaborted : Bool := false
  msgTimeout : Bool := false
deriving DecidableEq, Repr

/-- The retryability test of `withRetry` (lines 139-144). -/
def withRetryIsRetryable (e : ReqError) : Bool :=
  e.econnaborted || e.msgTimeout || (e.hasResponse && 500 ≤ e.status)
    || (e.hasResponse && e.status = 429)

/-- What one invocation of the profile request would produce. -/
inductive FetchOutcome
  | ok (p : ProfilePayload)
  | err (e : ReqError)
deriving DecidableEq, Repr

/-- `withRetry(operation, 'profile')` (lines 120-169) specialised to the
profile fetch: up to `maxAttempts` attempts, each routed through the
`profile` circuit breaker; `outcomes` lists what each actual network
invocation would return, consumed in order; the returned `Nat` counts the
network invocations performed (a breaker denial performs none).  On each
failure `errorState.retryCount` is set to the attempt number; a
non-retryable error or the last attempt propagates the error. -/
def withRetryProfileGo (st : StoreState) (outcomes : List FetchOutcome)
    (now : Nat) (attempt maxAttempts : Nat) (invoked : Nat) :
    (remaining : Nat) → StoreState × Except ReqError ProfilePayload × Nat
  | 0 => (st, Except.error {}, invoked)
  | remaining + 1 =>
    let st := clearError st
    let outcome := outcomes.getD invoked (.err {})
    let ok := match outcome with | .ok _ => true | .err _ => false
    let r := cbExecute circuitBreakerConfig st.cbProfile now ok
    let st := { st with cbProfile := r.1 }
    match r.2 with
    | .denied =>
      let st := { st with errorState := { st.errorState with retryCount := attempt } }
      (st, Except.error {}, invoked)
    | .passed =>
      match outcome with
      | .ok p => (st, Except.ok p, invoked + 1)
      | .err e => (st, Except.error e, invoked + 1)
    | .failedR =>
      let e := match outcome with | .err e => e | .ok _ => {}
      let st := { st with errorState := { st.errorState with retryCount := attempt } }
      if withRetryIsRetryable e && attempt ≠ maxAttempts then
        withRetryProfileGo st outcomes now (attempt + 1) maxAttempts
          (invoked + 1) remaining
      else
        (st, Except.error e, invoked + 1)

/-- `authConfig.retry.maxAttempts` (src/src/config/auth.js line 49). -/
def retryMaxAttempts : Nat := 3

/-- `fetchProfile()` (lines 263-350).  `rl` is the rate-limit backing
store for the `profile` key (which is not configured in
`authConfig.rateLimiting.requests`, so the gate always allows);
`outcomes` lists the would-be results of the network invocations.
Returns the new store state, the boolean returned to the caller, the
number of network requests performed, and the rate-limit store. -/
def fetchProfile (st : StoreState) (rl : RLStorage)
    (outcomes : List FetchOutcome) (now : Nat) :
    StoreState × Bool × Nat × RLStorage :=
  if !(accessTokenTruthy (storeToken st)) || storeIsAnonymous st then
    (clearError st, false, 0, rl)
  else
    let rlr := checkRateLimit "profile" rl now
    if !rlr.1 then
      (setError st "rate_limited" "Too many requests" (some "profile") now,
       false, 0, rlr.2)
    else
      let st := { st with loading := true }
      let st := clearError st
      let run := withRetryProfileGo st outcomes now 1 retryMaxAttempts 0
        retryMaxAttempts
      let st := run.1
      match run.2.1 with
      | Except.ok payload =>
        let baseProfile : ProfileVal :=
          match payload.user with
          | some u => .userObj u
          | none => .payloadObj payload
        let st := { st with
          profile := some baseProfile
          linkedProviders := payload.linked_providers.getD []
          profileProvider := payload.provider.orElse
            (fun _ => st.normalizedSession.bind (fun s => s.provider))
          profileProviderId := payload.provider_id.orElse
            (fun _ => st.normalizedSession.bind (fun s => s.provider_id))
          sessionHealth := { st.sessionHealth with
                             isHealthy := true
                             failureCount := 0 } }
        ({ st with loading := false }, true, run.2.2, rlr.2)
      | Except.error e =>
        let fc := st.sessionHealth.failureCount + 1
        let st := { st with
          sessionHealth := { st.sessionHealth with failureCount := fc } }
        if e.hasResponse && e.status = 401 then
          let st := setError st "session_invalid"
            "Authentication validation failed. Please sign in again." none now
          let st := if 3 ≤ fc then (signOut st false now).1 else st
          ({ st with loading := false }, false, run.2.2, rlr.2)
        else
          let etype := if e.econnaborted then "timeout" else "profile_fetch_failed"
          let st := setError st etype "Failed to fetch profile" none now
          let st :=
            if 3 ≤ fc then
              { st with sessionHealth := { st.sessionHealth with isHealthy := false } }
            else st
          ({ st with loading := false }, false, run.2.2, rlr.2)

/-! ## Linking session snapshot (src/src/linking/sessionSnapshot.js) -/

/-- The snapshot object `{ session, provider }`. -/
structure LinkingSnapshot where
  session : Option Session
  provider : Option String
deriving DecidableEq, Repr

/-- `cloneSession(session)` (lines 3-11): null maps to null, otherwise a
`JSON.parse(JSON.stringify(...))` deep copy.  Sessions in this embedding
are pure JSON-representable data, so the round trip is the identity and
its catch branch is unreachable. -/
def cloneSession : Option Session → Option Session
  | none => none
  | some s => some s

/-- `createLinkingSessionSnapshot(store)` (lines 13-23):
`store.currentProvider || null` and a deep copy of
`store.normalizedSession`. -/
def createLinkingSessionSnapshot (st : StoreState) : LinkingSnapshot :=
  { session := cloneSession st.normalizedSession
    provider := jsOrS (storeCurrentProvider st) none }

/-- `restoreLinkingSessionSnapshot(store, snapshot, linkedProviderName)`
(lines 25-53).  An absent/incomplete snapshot is a no-op returning false;
linking the same provider as the snapshot only refreshes the profile and
returns false; otherwise the snapshot session is re-set via `setSession`
and the profile refreshed, returning true.  `fetchProfile` and
`setSession` in this embedding return error flags instead of throwing,
so the catch branches (lines 33, 41, 48) are unreachable. -/
def restoreLinkingSessionSnapshot (st : StoreState)
    (snapshot : Option LinkingSnapshot) (linkedProviderName : Option String)
    (rl : RLStorage) (outcomes : List FetchOutcome) (now : Nat) :
    StoreState × Bool :=
  match snapshot with
  | none => (st, false)
  | some snap =>
    if snap.session.isNone || !strTruthy snap.provider then
      (st, false)
    else if strTruthy linkedProviderName && snap.provider == linkedProviderName then
      ((fetchProfile st rl outcomes now).1, false)
    else
      let st1 := (setSession st snap.session snap.provider now).1
      ((fetchProfile st1 rl outcomes now).1, true)

/-! ## Token-refresh coordination (src/unnamed/part_003 lines 52-203,
src/unnamed/part_004 lines 38-58)

The module-level `isRefreshing` flag and `refreshSubscribers` array,
together with the promise returned to each request that enters
`handleTokenRefresh`, form a small event system.  Events are the
suspension points of the single-threaded runtime:

  - `arrive i` — request `i` fails with 401 (with a session present, not
    marked `_skipAuth`, not the `/auth/me` endpoint) and enters
    `handleTokenRefresh`: if a refresh is in flight it only subscribes a
    replay callback, otherwise it sets the flag and issues the one
    provider `handleTokenExpiry` call;
  - `refreshResolves raw` — the in-flight provider call wins the
    `Promise.race` and succeeds: the supabase provider has already applied
    `userStore.setSession(session, 'supabase')` inside `handleTokenExpiry`,
    the leader then replays every subscriber and clears the flag;
  - `refreshFails pf` — the race rejects (refresh timeout) or the provider
    returned null: the catch of `handleTokenRefresh` clears the flag,
    empties the subscriber array WITHOUT invoking the dropped callbacks,
    signs the user out and rejects the leader promise only;
  - `lateCompletion r` — the provider call that lost the race against the
    timeout completes afterwards: `Promise.race` discards its return value
    but the `handleTokenExpiry` body has still executed, so a successful
    late refresh applies `userStore.setSession` to the store. -/

inductive PromiseStatus
  | pending
  | resolvedOk
  | rejected
deriving DecidableEq, Repr

inductive RefreshEvent
  | arrive (i : Nat)
  | refreshResolves (raw : Session) (now : Nat)
  | refreshFails (pf : Bool) (now : Nat)
  | lateCompletion (r : Option Session) (now : Nat)
deriving DecidableEq, Repr

structure InterceptorState where
  isRefreshing : Bool
  refreshSubscribers : List Nat
  refreshCalls : Nat
  leader : Option Nat
  promises : List (Nat × PromiseStatus)
  store : StoreState
deriving DecidableEq, Repr

/-- Interceptor module state at load time (lines 54-55), over a given
store state. -/
def interceptorInit (st : StoreState) : InterceptorState :=
  { isRefreshing := false, refreshSubscribers := [], refreshCalls := 0,
    leader := none, promises := [], store := st }

/-- Settle the promises of the given request ids. -/
def settlePromises (ps : List (Nat × PromiseStatus)) (ids : List Nat)
    (how : PromiseStatus) : List (Nat × PromiseStatus) :=
  ps.map (fun ip => if ip.1 ∈ ids then (ip.1, how) else ip)

/-- One event of the refresh coordination (see above). -/
def refreshStep (s : InterceptorState) : RefreshEvent → InterceptorState
  | .arrive i =>
    if s.isRefreshing then
      { s with refreshSubscribers := s.refreshSubscribers ++ [i]
               promises := s.promises ++ [(i, .pending)] }
    else
      { s with isRefreshing := true
               refreshCalls := s.refreshCalls + 1
               leader := some i
               promises := s.promises ++ [(i, .pending)] }
  | .refreshResolves raw now =>
    if s.isRefreshing then
      let store := (setSession s.store (some raw) (some "supabase") now).1
      let ids := s.refreshSubscribers ++ (s.leader.map (fun l => [l])).getD []
      { s with isRefreshing := false
               refreshSubscribers := []
               leader := none
               promises := settlePromises s.promises ids .resolvedOk
               store := store }
    else s
  | .refreshFails pf now =>
    if s.isRefreshing then
      let store := (signOut s.store pf now).1
      { s with isRefreshing := false
               refreshSubscribers := []
               leader := none
               promises := settlePromises s.promises
                 ((s.leader.map (fun l => [l])).getD []) .rejected
               store := store }
    else s
  | .lateCompletion r now =>
    match r with
    | some raw =>
      { s with store := (setSession s.store (some raw) (some "supabase") now).1 }
    | none => s

/-- Run a sequence of refresh-coordination events. -/
def refreshRun (s : InterceptorState) (evs : List RefreshEvent) :
    InterceptorState :=
  evs.foldl refreshStep s

/-! ## Example data used by witnesses and counterexamples -/

/-- A raw supabase user whose display name comes from its metadata. -/
def exUser : SessionUser :=
  { email := some "a@b.c", user_metadata := some { full_name := some "Alice" } }

/-- A raw supabase session whose access token is not a decodable JWT, so
the normalizer falls back to `session.user`. -/
def exRawSession : Session :=
  { access_token := some (.plain "tok"), user := some exUser }

/-- A store that has adopted `exRawSession` through `setSession`
(a reachable authenticated state). -/
def exStore : StoreState :=
  (setSession {} (some exRawSession) (some "supabase") 0).1

/-- A profile payload with a nested user. -/
def exPayload : ProfilePayload := { user := some "bob" }

/-- An empty, working rate-limit backing store. -/
def exRL : RLStorage := { data := some [], writeFails := false }

/-- Two decoded token payloads with distinct subjects, and raw sessions
carrying them as decodable JWTs. -/
def exTok1 : TokenPayload := { email := some "x@y.z", sub := some "sub1" }

def exTok2 : TokenPayload := { email := some "x@y.z", sub := some "sub2" }

def exJwt1 : Session := { access_token := some (.jwt exTok1) }

def exJwt2 : Session := { access_token := some (.jwt exTok2) }

/-! ## C1: exactly one refresh under concurrent 401s -/

/-- While `isRefreshing` is set, a burst of arriving 401 requests only
appends subscribers and pending promises: the flag stays set, no further
provider refresh call is issued, and the store is untouched. -/
theorem refreshRun_subscribe_while_refreshing (ids : List Nat) :
    ∀ s : InterceptorState, s.isRefreshing = true →
      (refreshRun s (ids.map RefreshEvent.arrive)).refreshCalls = s.refreshCalls ∧
      (refreshRun s (ids.map RefreshEvent.arrive)).isRefreshing = true ∧
      (refreshRun s (ids.map RefreshEvent.arrive)).refreshSubscribers
        = s.refreshSubscribers ++ ids ∧
      (refreshRun s (ids.map RefreshEvent.arrive)).store = s.store := by
  induction ids with
  | nil => intro s hs; simp [refreshRun, hs]
  | cons i rest ih =>
    intro s hs
    have hstep : refreshStep s (RefreshEvent.arrive i)
        = { s with refreshSubscribers := s.refreshSubscribers ++ [i]
                   promises := s.promises ++ [(i, .pending)] } := by
      simp [refreshStep, hs]
    have h2 := ih { s with refreshSubscribers := s.refreshSubscribers ++ [i]
                           promises := s.promises ++ [(i, .pending)] } hs
    simpa [refreshRun, hstep, List.append_assoc] using h2

/-- C1: for every number `n ≥ 1` of concurrent requests failing with 401
while a session exists (none skipping auth handling, none hitting the
validation endpoint — i.e. each one entering `handleTokenRefresh`), the
coordination issues exactly one provider `handleTokenExpiry` call: the
first request sets the `isRefreshing` flag and makes the single refresh
call, and every later request only subscribes a replay callback. -/
theorem C1_exactly_one_refresh_call (st0 : StoreState) (n : Nat) (h : 1 ≤ n) :
    (refreshRun (interceptorInit st0)
        ((List.range n).map RefreshEvent.arrive)).refreshCalls = 1 ∧
    (refreshRun (interceptorInit st0)
        ((List.range n).map RefreshEvent.arrive)).isRefreshing = true ∧
    (refreshRun (interceptorInit st0)
        ((List.range n).map RefreshEvent.arrive)).refreshSubscribers
      = (List.range n).drop 1 := by
  obtain ⟨m, rfl⟩ : ∃ m, n = m + 1 := ⟨n - 1, by omega⟩
  rw [List.range_succ_eq_map]
  have hstep : refreshStep (interceptorInit st0) (RefreshEvent.arrive 0)
      = { interceptorInit st0 with
          isRefreshing := true, refreshCalls := 1, leader := some 0,
          promises := [(0, .pending)] } := by
    simp [refreshStep, interceptorInit]
  have h2 := refreshRun_subscribe_while_refreshing
    ((List.range m).map Nat.succ)
    { interceptorInit st0 with
      isRefreshing := true, refreshCalls := 1, leader := some 0,
      promises := [(0, .pending)] } rfl
  simp only [List.map_cons, refreshRun, List.foldl_cons, hstep] at *
  exact ⟨h2.1, h2.2.1, by simpa [interceptorInit] using h2.2.2.1⟩

/-- Witness for C1 at three concurrent requests over a fresh store. -/
theorem C1_exactly_one_refresh_call_w :
    (refreshRun (interceptorInit {})
        ((List.range 3).map RefreshEvent.arrive)).refreshCalls = 1 ∧
    (refreshRun (interceptorInit {})
        ((List.range 3).map RefreshEvent.arrive)).isRefreshing = true ∧
    (refreshRun (interceptorInit {})
        ((List.range 3).map RefreshEvent.arrive)).refreshSubscribers
      = (List.range 3).drop 1 :=
  C1_exactly_one_refresh_call {} 3 (by norm_num)

/-! ## C2: queued subscribers on refresh failure -/

/-- C2 evaluated at the failing input: three concurrent 401 requests with
a session present, then the single in-flight refresh fails.  The flag and
the subscriber list are cleared and the user is signed out, and the
original caller's promise is rejected — but the two queued requests'
promises are still pending: their callbacks were dropped without ever
being invoked (`refreshSubscribers = []` at line 184 of the interceptor,
with `onTokenRefreshed` only called on the success path), so they hang
instead of failing together with the original caller as the specification
requires. -/
theorem C2_dropped_subscribers_hang :
    (refreshRun (interceptorInit exStore)
        [.arrive 0, .arrive 1, .arrive 2, .refreshFails false 100]).isRefreshing
        = false ∧
    (refreshRun (interceptorInit exStore)
        [.arrive 0, .arrive 1, .arrive 2,
         .refreshFails false 100]).refreshSubscribers = [] ∧
    (refreshRun (interceptorInit exStore)
        [.arrive 0, .arrive 1, .arrive 2,
         .refreshFails false 100]).store.normalizedSession = none ∧
    (refreshRun (interceptorInit exStore)
        [.arrive 0, .arrive 1, .arrive 2, .refreshFails false 100]).promises
      = [(0, .rejected), (1, .pending), (2, .pending)] := by
  decide

/-! ## C6: signOut always clears local state -/

/-- C6: for every starting store state, `signOut()` clears the local
session state even when the active provider's remote sign-out throws on
every attempt (`providerFails = true`): the session, profile, linked
providers and profile-provider fields are null/empty, both default
headers are removed, session health is reset, every circuit breaker is
reset to its closed initial state, and the call reports true. -/
theorem C6_signout_always_clears (st : StoreState) (providerFails : Bool)
    (now : Nat) :
    (signOut st providerFails now).1.normalizedSession = none ∧
    (signOut st providerFails now).1.profile = none ∧
    (signOut st providerFails now).1.linkedProviders = [] ∧
    (signOut st providerFails now).1.profileProvider = none ∧
    (signOut st providerFails now).1.profileProviderId = none ∧
    (signOut st providerFails now).1.authHeader = none ∧
    (signOut st providerFails now).1.xAuthProviderHeader = none ∧
    (signOut st providerFails now).1.sessionHealth
      = { lastCheck := none, isHealthy := true, failureCount := 0,
          nextRefreshTime := none } ∧
    (signOut st providerFails now).1.cbAuth = cbInit ∧
    (signOut st providerFails now).1.cbTokenRefresh = cbInit ∧
    (signOut st providerFails now).1.cbProfile = cbInit ∧
    (signOut st providerFails now).2 = true := by
  refine ⟨rfl, rfl, rfl, rfl, rfl, rfl, rfl, rfl, rfl, rfl, rfl, rfl⟩

/-! ## C7: the fetchProfile unauthenticated/anonymous guard -/

/-- Counterexample to C7 as stated: on a store with no token,
`fetchProfile()` performs no network request — but it reports `false` to
its caller, the same value every failure path returns, not success. -/
theorem C7_guard_returns_false_cex :
    storeToken ({} : StoreState) = none ∧
    ¬ ((fetchProfile {} exRL [] 0).2.1 = true) := by
  decide

/-- C7 as amended: whenever the store has no (truthy) token or the
current session is anonymous, `fetchProfile()` performs no network
request and changes nothing except clearing the error state — but it
returns `false` (the failure value), not success. -/
theorem C7_guard_noop (st : StoreState) (rl : RLStorage)
    (outcomes : List FetchOutcome) (now : Nat)
    (h : accessTokenTruthy (storeToken st) = false ∨ storeIsAnonymous st = true) :
    fetchProfile st rl outcomes now = (clearError st, false, 0, rl) := by
  rcases h with h | h <;> simp [fetchProfile, h]

/-- Witness for the amended C7 on a fresh, tokenless store. -/
theorem C7_guard_noop_w :
    fetchProfile {} exRL [] 0 = (clearError {}, false, 0, exRL) :=
  C7_guard_noop {} exRL [] 0 (Or.inl (by decide))

/-! ## C8: the late loser of the refresh/timeout race -/

/-- C8 evaluated at the failing input: the in-flight refresh loses the
race against the 10 s timeout (`refreshFails` at t=10000 signs the user
out), a second refresh then succeeds with session `exJwt2`, and finally
the first provider call completes late with session `exJwt1`.
`Promise.race` discards the late call's return value, but the supabase
`handleTokenExpiry` body has already executed
`userStore.setSession(session, 'supabase')`, so the stale session IS
applied to the store — it clobbers the newer successful refresh instead
of being discarded as the specification requires. -/
theorem C8_late_completion_applied :
    (refreshRun (interceptorInit exStore)
        [.arrive 0, .refreshFails false 10000,
         .lateCompletion (some exJwt1) 11000]).store.normalizedSession
      = some (normalizeSupabaseSessionCore exJwt1) ∧
    (refreshRun (interceptorInit exStore)
        [.arrive 0, .refreshFails false 10000, .arrive 1,
         .refreshResolves exJwt2 12000,
         .lateCompletion (some exJwt1) 13000]).store.normalizedSession
      = some (normalizeSupabaseSessionCore exJwt1) ∧
    normalizeSupabaseSessionCore exJwt1 ≠ normalizeSupabaseSessionCore exJwt2 := by
  decide

/-! ## C10: setSession with an unknown provider -/

/-- C10: a non-null raw session resolving to an unregistered provider
name makes `setSession` report failure, record a `provider_not_found`
error, and unconditionally null the stored normalized session — a
previously authenticated session is cleared, not preserved. -/
theorem C10_unknown_provider_clears_session (st : StoreState) (raw : Session)
    (providerName : Option String) (now : Nat)
    (h : hasAuthProvider (resolveProvider providerName raw) = false) :
    (setSession st (some raw) providerName now).2 = false ∧
    (setSession st (some raw) providerName now).1.normalizedSession = none ∧
    (setSession st (some raw) providerName now).1.errorState.hasError = true ∧
    (setSession st (some raw) providerName now).1.errorState.errorType
      = some "provider_not_found" ∧
    (setSession st (some raw) providerName now).1.profile = st.profile ∧
    (setSession st (some raw) providerName now).1.authHeader = st.authHeader := by
  simp [setSession, h, setError, clearError]

/-- Witness for C10: a store authenticated under supabase receives a raw
session hinting at the unregistered provider `github`; the prior session
is wiped. -/
theorem C10_unknown_provider_clears_session_w :
    (setSession exStore (some { exRawSession with _provider := some "github" })
        none 9).2 = false ∧
    (setSession exStore (some { exRawSession with _provider := some "github" })
        none 9).1.normalizedSession = none ∧
    (setSession exStore (some { exRawSession with _provider := some "github" })
        none 9).1.errorState.hasError = true ∧
    (setSession exStore (some { exRawSession with _provider := some "github" })
        none 9).1.errorState.errorType = some "provider_not_found" ∧
    (setSession exStore (some { exRawSession with _provider := some "github" })
        none 9).1.profile = exStore.profile ∧
    (setSession exStore (some { exRawSession with _provider := some "github" })
        none 9).1.authHeader = exStore.authHeader :=
  C10_unknown_provider_clears_session exStore
    { exRawSession with _provider := some "github" } none 9 (by decide)

/-! ## C4: retry delay monotonicity and (absence of a) cap -/

/-- A 503 response error, categorized as a server error by the
interceptor. -/
def exServerError : HttpError :=
  { hasResponse := true, status := 503, codeEconnaborted := false,
    messageHasTimeout := false, retryAfter := none }

/-- Counterexample to C4 as stated: at retryCount 7 the jitter-free
interceptor delay for a server error is 64000 ms, which exceeds both the
configured `maxRetryDelay` (30000 ms, which the interceptor never reads)
and the 60000 ms cap the interceptor applies only to server-provided
`Retry-After` values — the exponential backoff itself is uncapped. -/
theorem C4_delay_uncapped_cex :
    getRetryDelay exServerError 7 0 = 64000 ∧
    ¬ (getRetryDelay exServerError 7 0 ≤ (maxRetryDelayConfig : Int)) ∧
    ¬ (getRetryDelay exServerError 7 0 ≤ 60000) := by
  decide

/-- C4 as amended: for every fixed error, the jitter-free retry delay of
the interceptor is monotonically non-decreasing in `retryCount`; it has
no cap in general, but for every retry count actually reachable under the
interceptor's `maxRetries` budget (`retryCount ≤ 3`) it never exceeds
60000 ms (the cap applied to server-provided Retry-After values). -/
theorem C4_delay_monotone_and_capped_in_budget :
    (∀ (e : HttpError) (rc rcg : Nat), 1 ≤ rc → rc ≤ rcg →
      getRetryDelay e rc 0 ≤ getRetryDelay e rcg 0) ∧
    (∀ (e : HttpError) (rc : Nat), 1 ≤ rc → rc ≤ interceptorMaxRetries →
      getRetryDelay e rc 0 ≤ 60000) := by
  constructor
  · intro e rc rcg h1 h2
    unfold getRetryDelay
    split_ifs with hc
    · rcases hra : e.retryAfter with _ | ra
      · simp only
        have : (5000 : Int) * rc ≤ 5000 * rcg := by
          have : (rc : Int) ≤ rcg := by exact_mod_cast h2
          nlinarith
        simpa using this
      · rcases ra with n | d <;> simp
    · have hp : calculateRetryDelay rc 0 ≤ calculateRetryDelay rcg 0 := by
        unfold calculateRetryDelay
        have : interceptorBackoffMultiplier ^ (rc - 1)
            ≤ interceptorBackoffMultiplier ^ (rcg - 1) :=
          Nat.pow_le_pow_right (by norm_num [interceptorBackoffMultiplier])
            (by omega)
        simp only [interceptorRetryDelay]
        omega
      exact_mod_cast hp
  · intro e rc h1 h3
    unfold getRetryDelay
    split_ifs with hc
    · rcases hra : e.retryAfter with _ | ra
      · simp only
        have : (rc : Int) ≤ 3 := by
          exact_mod_cast (by simpa [interceptorMaxRetries] using h3 : rc ≤ 3)
        nlinarith
      · rcases ra with n | d
        · simp
        · simp
    · have hrc : rc ≤ 3 := by simpa [interceptorMaxRetries] using h3
      have hp : calculateRetryDelay rc 0 ≤ 4000 := by
        unfold calculateRetryDelay
        have : interceptorBackoffMultiplier ^ (rc - 1)
            ≤ interceptorBackoffMultiplier ^ 2 :=
          Nat.pow_le_pow_right (by norm_num [interceptorBackoffMultiplier])
            (by omega)
        simp only [interceptorRetryDelay, interceptorBackoffMultiplier] at *
        omega
      have : (calculateRetryDelay rc 0 : Int) ≤ 4000 := by exact_mod_cast hp
      omega

/-- Witness for the amended C4: a server error at retry counts 2 and 3. -/
theorem C4_delay_monotone_and_capped_in_budget_w :
    getRetryDelay exServerError 2 0 ≤ getRetryDelay exServerError 3 0 ∧
    getRetryDelay exServerError 3 0 ≤ 60000 :=
  ⟨C4_delay_monotone_and_capped_in_budget.1 exServerError 2 3 (by norm_num)
      (by norm_num),
   C4_delay_monotone_and_capped_in_budget.2 exServerError 3 (by norm_num)
      (by norm_num [interceptorMaxRetries])⟩

/-! ## C5: the sliding-window rate limiter -/

/-- A `checkRateLimit` call for the `login` action (max 5 per 300000 ms)
on a working backing store holding fewer than 5 still-recent timestamps
is allowed and appends the current time. -/
theorem checkRateLimit_login_allowed (l : List Nat) (now : Nat)
    (hlen : l.length < 5) (hkeep : ∀ t ∈ l, now - t < 300000) :
    checkRateLimit "login" { data := some l, writeFails := false } now
      = (true, { data := some (l ++ [now]), writeFails := false }) := by
  have hf : l.filter (fun t => decide (now - t < 300000)) = l :=
    List.filter_eq_self.mpr (fun t ht => by simpa using hkeep t ht)
  simp [checkRateLimit, rlRequests, rateLimitingEnabled, hf,
    Nat.not_le.mpr hlen]

/-- C5: with the `login` configuration (`max = 5`, `window = 300000` ms),
any 5 calls inside one window starting from an empty store are allowed;
a 6th call inside the same window is denied; a call made once the window
has elapsed past the recorded timestamps is allowed again; a failure to
read the backing store allows the call (fail-open); and a failure to
write the backing store likewise allows the call — whenever the denial
test passes and the `setItem` persisting the appended timestamp throws,
the catch still returns true (a write is only ever attempted on the
allow path, so this covers every write failure). -/
theorem C5_rate_limit_window (t1 t2 t3 t4 t5 t6 t7 : Nat)
    (h12 : t1 ≤ t2) (h23 : t2 ≤ t3) (h34 : t3 ≤ t4) (h45 : t4 ≤ t5)
    (h56 : t5 ≤ t6) (hwin : t6 - t1 < 300000) (h7 : t5 + 300000 ≤ t7) :
    (rlRun "login" { data := some [], writeFails := false }
        [t1, t2, t3, t4, t5]).1 = [true, true, true, true, true] ∧
    (checkRateLimit "login"
        (rlRun "login" { data := some [], writeFails := false }
          [t1, t2, t3, t4, t5]).2 t6).1 = false ∧
    (checkRateLimit "login"
        (rlRun "login" { data := some [], writeFails := false }
          [t1, t2, t3, t4, t5]).2 t7).1 = true ∧
    (∀ st : RLStorage, st.data = none →
      ∀ now : Nat, (checkRateLimit "login" st now).1 = true) ∧
    (∀ (l : List Nat) (now : Nat),
      (l.filter (fun t => decide (now - t < 300000))).length < 5 →
      (checkRateLimit "login" { data := some l, writeFails := true } now).1
        = true) := by
  have e1 := checkRateLimit_login_allowed [] t1 (by simp)
    (by intro t ht; simp at ht)
  have e2 := checkRateLimit_login_allowed [t1] t2 (by simp)
    (by intro t ht; simp at ht; omega)
  have e3 := checkRateLimit_login_allowed [t1, t2] t3 (by simp)
    (by intro t ht; simp at ht; rcases ht with rfl | rfl <;> omega)
  have e4 := checkRateLimit_login_allowed [t1, t2, t3] t4 (by simp)
    (by intro t ht; simp at ht; rcases ht with rfl | rfl | rfl <;> omega)
  have e5 := checkRateLimit_login_allowed [t1, t2, t3, t4] t5 (by simp)
    (by intro t ht; simp at ht; rcases ht with rfl | rfl | rfl | rfl <;> omega)
  have hrun : rlRun "login" { data := some [], writeFails := false }
      [t1, t2, t3, t4, t5]
      = ([true, true, true, true, true],
         { data := some [t1, t2, t3, t4, t5], writeFails := false }) := by
    simp [rlRun, e1, e2, e3, e4, e5]
  refine ⟨by rw [hrun], ?_, ?_, ?_, ?_⟩
  · rw [hrun]
    have hfull : [t1, t2, t3, t4, t5].filter
        (fun t => decide (t6 - t < 300000)) = [t1, t2, t3, t4, t5] := by
      refine List.filter_eq_self.mpr (fun t ht => ?_)
      simp at ht ⊢
      rcases ht with rfl | rfl | rfl | rfl | rfl <;> omega
    simp [checkRateLimit, rlRequests, rateLimitingEnabled, hfull]
  · rw [hrun]
    have hempty : [t1, t2, t3, t4, t5].filter
        (fun t => decide (t7 - t < 300000)) = [] := by
      refine List.filter_eq_nil_iff.mpr (fun t ht => ?_)
      simp at ht ⊢
      rcases ht with rfl | rfl | rfl | rfl | rfl <;> omega
    simp [checkRateLimit, rlRequests, rateLimitingEnabled, hempty]
  · intro st hd now
    rcases st with ⟨d, w⟩
    cases hd
    simp [checkRateLimit, rlRequests, rateLimitingEnabled]
  · intro l now hlen
    simp [checkRateLimit, rlRequests, rateLimitingEnabled,
      Nat.not_le.mpr hlen]

/-- Witness for C5 at concrete times 0..4 within one window, a 6th call
at 5, a call at 300004 after the window has passed, and a write-failing
store holding one recent timestamp. -/
theorem C5_rate_limit_window_w :
    (rlRun "login" { data := some [], writeFails := false }
        [0, 1, 2, 3, 4]).1 = [true, true, true, true, true] ∧
    (checkRateLimit "login"
        (rlRun "login" { data := some [], writeFails := false }
          [0, 1, 2, 3, 4]).2 5).1 = false ∧
    (checkRateLimit "login"
        (rlRun "login" { data := some [], writeFails := false }
          [0, 1, 2, 3, 4]).2 300004).1 = true ∧
    (∀ st : RLStorage, st.data = none →
      ∀ now : Nat, (checkRateLimit "login" st now).1 = true) ∧
    (checkRateLimit "login" { data := some [0], writeFails := true } 1).1
      = true :=
  ⟨(C5_rate_limit_window 0 1 2 3 4 5 300004 (by norm_num) (by norm_num)
      (by norm_num) (by norm_num) (by norm_num) (by norm_num)
      (by norm_num)).1,
   (C5_rate_limit_window 0 1 2 3 4 5 300004 (by norm_num) (by norm_num)
      (by norm_num) (by norm_num) (by norm_num) (by norm_num)
      (by norm_num)).2.1,
   (C5_rate_limit_window 0 1 2 3 4 5 300004 (by norm_num) (by norm_num)
      (by norm_num) (by norm_num) (by norm_num) (by norm_num)
      (by norm_num)).2.2.1,
   (C5_rate_limit_window 0 1 2 3 4 5 300004 (by norm_num) (by norm_num)
      (by norm_num) (by norm_num) (by norm_num) (by norm_num)
      (by norm_num)).2.2.2.1,
   (C5_rate_limit_window 0 1 2 3 4 5 300004 (by norm_num) (by norm_num)
      (by norm_num) (by norm_num) (by norm_num) (by norm_num)
      (by norm_num)).2.2.2.2 [0] 1 (by decide)⟩

/-! ## C3: the CircuitBreaker state machine -/

/-- Invariant of the configured breaker: any state reachable from the
constructor state that is not closed carries at least `threshold = 5`
recorded failures (failures are only reset when the breaker closes). -/
theorem cbExecute_inv (s : CBState) (now : Nat) (ok : Bool)
    (h : s.state = .closed ∨ 5 ≤ s.failures) :
    (cbExecute circuitBreakerConfig s now ok).1.state = .closed ∨
      5 ≤ (cbExecute circuitBreakerConfig s now ok).1.failures := by
  rcases s with ⟨st, f, lft, sc⟩
  rcases st <;> rcases ok <;>
    simp_all [cbExecute, circuitBreakerConfig] <;>
    split_ifs <;> simp_all <;> omega

/-- The invariant holds along every event sequence from the constructor
state. -/
theorem cbRun_inv (evs : List (Nat × Bool)) :
    ∀ s : CBState, (s.state = .closed ∨ 5 ≤ s.failures) →
      (cbRun circuitBreakerConfig s evs).state = .closed ∨
        5 ≤ (cbRun circuitBreakerConfig s evs).failures := by
  induction evs with
  | nil => intro s h; simpa [cbRun] using h
  | cons ev rest ih =>
    intro s h
    have h2 := cbExecute_inv s ev.1 ev.2 h
    simpa [cbRun] using ih _ h2

/-- C3: the configured CircuitBreaker (threshold 5, timeout 60000 ms,
3 half-open trial requests) satisfies: (1) five consecutive failures from
the initial state open it, and while `now - lastFailureTime ≤ timeout`
every call is denied without invoking the wrapped operation and without
changing state; (2) from a half-open state with a fresh trial counter,
three consecutive successes close it with `failures` reset to 0; (3) in
every reachable half-open state a single failure reopens it, refreshing
`lastFailureTime`; (4) in a closed state a success decrements `failures`
with floor 0, staying closed. -/
theorem C3_circuit_breaker_machine :
    (∀ t1 t2 t3 t4 t5 : Nat,
      cbRun circuitBreakerConfig cbInit
          [(t1, false), (t2, false), (t3, false), (t4, false), (t5, false)]
        = { state := .open, failures := 5, lastFailureTime := some t5,
            successCount := 0 } ∧
      ∀ (now : Nat) (ok : Bool), now - t5 ≤ 60000 →
        cbExecute circuitBreakerConfig
            { state := .open, failures := 5, lastFailureTime := some t5,
              successCount := 0 } now ok
          = ({ state := .open, failures := 5, lastFailureTime := some t5,
               successCount := 0 }, .denied)) ∧
    (∀ s : CBState, s.state = .halfOpen → s.successCount = 0 →
      ∀ u1 u2 u3 : Nat,
        cbRun circuitBreakerConfig s [(u1, true), (u2, true), (u3, true)]
          = { state := .closed, failures := 0,
              lastFailureTime := s.lastFailureTime, successCount := 3 }) ∧
    (∀ evs : List (Nat × Bool),
      (cbRun circuitBreakerConfig cbInit evs).state = .halfOpen →
      ∀ now : Nat,
        (cbExecute circuitBreakerConfig
            (cbRun circuitBreakerConfig cbInit evs) now false).1.state
          = .open ∧
        (cbExecute circuitBreakerConfig
            (cbRun circuitBreakerConfig cbInit evs) now false).1.lastFailureTime
          = some now) ∧
    (∀ s : CBState, s.state = .closed → ∀ now : Nat,
      (cbExecute circuitBreakerConfig s now true).1
        = { s with failures := s.failures - 1 } ∧
      (cbExecute circuitBreakerConfig s now true).2 = .passed) := by
  refine ⟨?_, ?_, ?_, ?_⟩
  · intro t1 t2 t3 t4 t5
    refine ⟨rfl, ?_⟩
    intro now ok h
    have hng : ¬ (now - t5 > 60000) := by omega
    simp [cbExecute, circuitBreakerConfig, hng]
  · intro s h1 h2 u1 u2 u3
    rcases s with ⟨st, f, lft, sc⟩
    simp only at h1 h2
    subst h1; subst h2
    rfl
  · intro evs hhalf now
    have hinv := cbRun_inv evs cbInit (Or.inl rfl)
    rcases hinv with hinv | hinv
    · rw [hinv] at hhalf; cases hhalf
    · rcases hs : cbRun circuitBreakerConfig cbInit evs with ⟨st, f, lft, sc⟩
      rw [hs] at hhalf hinv
      simp only at hhalf hinv
      subst hhalf
      have hop : f + 1 ≥ 5 := by omega
      constructor <;>
        simp [cbExecute, circuitBreakerConfig, hop]
  · intro s h now
    rcases s with ⟨st, f, lft, sc⟩
    simp only at h
    subst h
    exact ⟨rfl, rfl⟩

/-- Witness for C3: concrete failure times 1..5, a denied call inside the
timeout, a half-open close-out, a reachable half-open state reopened by a
failure, and a closed-state success decrement. -/
theorem C3_circuit_breaker_machine_w :
    (cbRun circuitBreakerConfig cbInit
        [(1, false), (2, false), (3, false), (4, false), (5, false)]
      = { state := .open, failures := 5, lastFailureTime := some 5,
          successCount := 0 }) ∧
    (cbExecute circuitBreakerConfig
        { state := .open, failures := 5, lastFailureTime := some 5,
          successCount := 0 } 60005 true
      = ({ state := .open, failures := 5, lastFailureTime := some 5,
           successCount := 0 }, .denied)) ∧
    (cbRun circuitBreakerConfig
        { state := .halfOpen, failures := 5, lastFailureTime := some 5,
          successCount := 0 } [(60006, true), (60007, true), (60008, true)]
      = { state := .closed, failures := 0, lastFailureTime := some 5,
          successCount := 3 }) ∧
    ((cbExecute circuitBreakerConfig
        (cbRun circuitBreakerConfig cbInit
          [(1, false), (2, false), (3, false), (4, false), (5, false),
           (70000, true)]) 70001 false).1.state = .open) ∧
    ((cbExecute circuitBreakerConfig
        { state := .closed, failures := 2, lastFailureTime := none,
          successCount := 0 } 9 true).1
      = { state := .closed, failures := 1, lastFailureTime := none,
          successCount := 0 }) := by
  refine ⟨(C3_circuit_breaker_machine.1 1 2 3 4 5).1,
    (C3_circuit_breaker_machine.1 1 2 3 4 5).2 60005 true (by norm_num),
    C3_circuit_breaker_machine.2.1
      { state := .halfOpen, failures := 5, lastFailureTime := some 5,
        successCount := 0 } rfl rfl 60006 60007 60008,
    (C3_circuit_breaker_machine.2.2.1
      [(1, false), (2, false), (3, false), (4, false), (5, false),
       (70000, true)] (by decide) 70001).1,
    (C3_circuit_breaker_machine.2.2.2
      { state := .closed, failures := 2, lastFailureTime := none,
        successCount := 0 } rfl 9).1⟩

/-! ## C9: linking-snapshot round trip — helper lemmas -/

theorem jsOrS_of_truthy (a b : Option String) (h : strTruthy a = true) :
    jsOrS a b = a := by
  simp [jsOrS, h]

/-- Re-applying the `|| 'Bearer'` default is stable: the first application
already produced a non-empty string. -/
theorem getS_bearer_stable (a : Option String) :
    getS (some (getS a "Bearer")) "Bearer" = getS a "Bearer" := by
  rcases a with _ | s
  · rfl
  · by_cases h : s = ""
    · subst h; rfl
    · simp [getS, h]

/-- The `provider` field of every supabase-normalized session. -/
theorem normalizeSupabaseSessionCore_provider (s : Session) :
    (normalizeSupabaseSessionCore s).provider = some "supabase" := rfl

/-- Normalizing a supabase session twice is stable when the access token
is a decodable JWT with a truthy `sub` claim: the second pass re-derives
the user from the same token and the provider id from the same `sub`.
(Without a decodable token the second pass rebuilds the user from the
already-normalized user object, which has lost its `user_metadata`, and
the result can differ — see the C9 counterexample.) -/
theorem normalizeSupabaseSessionCore_idem (raw : Session) (p : TokenPayload)
    (htok : raw.access_token = some (.jwt p)) (hsub : strTruthy p.sub = true) :
    normalizeSupabaseSessionCore (normalizeSupabaseSessionCore raw)
      = normalizeSupabaseSessionCore raw := by
  simp [normalizeSupabaseSessionCore, htok, decodeAccessToken,
    getS_bearer_stable, jsOrS_of_truthy _ _ hsub]

/-- Projections of `setSession` under the supabase provider: the session
adopted is the supabase normalization of the raw session, and the health
failure count is reset to 0. -/
theorem setSession_supabase_proj (st : StoreState) (raw : Session) (now : Nat) :
    (setSession st (some raw) (some "supabase") now).1.normalizedSession
      = some (normalizeSupabaseSessionCore raw) ∧
    (setSession st (some raw) (some "supabase") now).1.sessionHealth.failureCount
      = 0 ∧
    (setSession st (some raw) (some "supabase") now).2 = true := by
  have hres : resolveProvider (some "supabase") raw = "supabase" := rfl
  have hb : (!hasAuthProvider "supabase") = false := rfl
  have hnf : normalizeFor "supabase" raw = normalizeSupabaseSessionCore raw := rfl
  refine ⟨?_, ?_, ?_⟩ <;>
    simp only [setSession, hres, hb, Bool.false_eq_true, if_false, hnf] <;>
    cases haT : accessTokenTruthy (normalizeSupabaseSessionCore raw).access_token <;>
    cases he : (normalizeSupabaseSessionCore raw).expires_at <;>
    simp [haT, he]

/-- The retry loop of `fetchProfile` only touches the `profile` circuit
breaker and the error state: the session and health fields pass through
unchanged. -/
theorem withRetryProfileGo_frame (outcomes : List FetchOutcome)
    (now m : Nat) (r : Nat) :
    ∀ (a i : Nat) (st : StoreState),
      (withRetryProfileGo st outcomes now a m i r).1.normalizedSession
        = st.normalizedSession ∧
      (withRetryProfileGo st outcomes now a m i r).1.sessionHealth
        = st.sessionHealth := by
  induction r with
  | zero => intro a i st; exact ⟨rfl, rfl⟩
  | succ r ih =>
    intro a i st
    unfold withRetryProfileGo
    dsimp only
    split
    · exact ⟨rfl, rfl⟩
    · split <;> exact ⟨rfl, rfl⟩
    · split
      · exact ih (a + 1) (i + 1) _
      · exact ⟨rfl, rfl⟩

/-- `fetchProfile` never touches the stored session when the health
failure count was 0 on entry (it takes at least three accumulated
failures before the 401 path forces a sign-out). -/
theorem fetchProfile_session_frame (st : StoreState) (rl : RLStorage)
    (outcomes : List FetchOutcome) (now : Nat)
    (h : st.sessionHealth.failureCount = 0) :
    (fetchProfile st rl outcomes now).1.normalizedSession
      = st.normalizedSession := by
  unfold fetchProfile
  by_cases hg : (!(accessTokenTruthy (storeToken st)) || storeIsAnonymous st) = true
  · simp [hg, clearError]
  · rw [Bool.not_eq_true] at hg
    have hrl : checkRateLimit "profile" rl now = (true, rl) := rfl
    simp only [hg, hrl, Bool.false_eq_true, if_false, Bool.not_true]
    obtain ⟨hns, hsh⟩ := withRetryProfileGo_frame outcomes now retryMaxAttempts
      retryMaxAttempts 1 0 (clearError { st with loading := true })
    cases hq : (withRetryProfileGo (clearError { st with loading := true })
        outcomes now 1 retryMaxAttempts 0 retryMaxAttempts).2.1 with
    | ok payload =>
      simp only [hq] at *
      simpa [clearError] using hns
    | error e =>
      simp only [hq]
      have hfc := congrArg SessionHealth.failureCount hsh
      have hfc0 : (clearError { st with loading := true }).sessionHealth.failureCount
          = 0 := h
      rw [hfc0] at hfc
      have hns2 : (withRetryProfileGo (clearError { st with loading := true })
          outcomes now 1 retryMaxAttempts 0 retryMaxAttempts).1.normalizedSession
          = st.normalizedSession := hns
      simp only [hfc]
      by_cases h401 : (e.hasResponse && e.status = 401) = true
      · simp [h401, setError, hns2]
      · rw [Bool.not_eq_true] at h401
        simp [h401, setError, hns2]

/-- Restoring a snapshot of a freshly adopted supabase session with no
linking performed re-adopts the snapshot session; when the access token
is a decodable JWT with a truthy subject the re-normalization is stable
and the stored session is unchanged. -/
theorem restore_noLink_preserves (st : StoreState) (raw : Session)
    (p : TokenPayload) (now now2 : Nat) (rl : RLStorage)
    (outcomes : List FetchOutcome)
    (htok : raw.access_token = some (.jwt p)) (hsub : strTruthy p.sub = true) :
    (restoreLinkingSessionSnapshot
        (setSession st (some raw) (some "supabase") now).1
        (some (createLinkingSessionSnapshot
          (setSession st (some raw) (some "supabase") now).1))
        none rl outcomes now2).1.normalizedSession
      = (setSession st (some raw) (some "supabase") now).1.normalizedSession := by
  obtain ⟨hses, hfc, -⟩ := setSession_supabase_proj st raw now
  set st1 := (setSession st (some raw) (some "supabase") now).1 with hst1
  have hprov : storeCurrentProvider st1 = some "supabase" := by
    simp [storeCurrentProvider, hses, normalizeSupabaseSessionCore_provider]
  have hsnap : createLinkingSessionSnapshot st1
      = { session := some (normalizeSupabaseSessionCore raw),
          provider := some "supabase" } := by
    simp [createLinkingSessionSnapshot, cloneSession, hses, hprov, jsOrS,
      strTruthy]
  rw [hsnap]
  simp only [restoreLinkingSessionSnapshot, strTruthy]
  norm_num
  rw [if_neg (by decide : ¬("supabase" = ""))]
  obtain ⟨hses2, hfc2, -⟩ :=
    setSession_supabase_proj st1 (normalizeSupabaseSessionCore raw) now2
  rw [fetchProfile_session_frame _ rl outcomes now2 hfc2, hses2,
    normalizeSupabaseSessionCore_idem raw p htok hsub]
  exact hses.symm

/-- Restoring a snapshot of a freshly adopted supabase session after a
DIFFERENT provider was linked re-sets the snapshot session on whatever
store state the linking flow left behind and reports a restore. -/
theorem restore_diffLink_resets (st stX : StoreState) (raw : Session)
    (p : TokenPayload) (now now2 : Nat) (rl : RLStorage)
    (outcomes : List FetchOutcome) (lp : Option String)
    (htok : raw.access_token = some (.jwt p)) (hsub : strTruthy p.sub = true)
    (_hlp : strTruthy lp = true) (hne : lp ≠ some "supabase") :
    (restoreLinkingSessionSnapshot stX
        (some (createLinkingSessionSnapshot
          (setSession st (some raw) (some "supabase") now).1))
        lp rl outcomes now2).2 = true ∧
    (restoreLinkingSessionSnapshot stX
        (some (createLinkingSessionSnapshot
          (setSession st (some raw) (some "supabase") now).1))
        lp rl outcomes now2).1.normalizedSession
      = (setSession st (some raw) (some "supabase") now).1.normalizedSession := by
  obtain ⟨hses, hfc, -⟩ := setSession_supabase_proj st raw now
  set st1 := (setSession st (some raw) (some "supabase") now).1 with hst1
  have hprov : storeCurrentProvider st1 = some "supabase" := by
    simp [storeCurrentProvider, hses, normalizeSupabaseSessionCore_provider]
  have hsnap : createLinkingSessionSnapshot st1
      = { session := some (normalizeSupabaseSessionCore raw),
          provider := some "supabase" } := by
    simp [createLinkingSessionSnapshot, cloneSession, hses, hprov, jsOrS,
      strTruthy]
  have hbeq : ((some "supabase" : Option String) == lp) = false :=
    beq_eq_false_iff_ne.mpr (Ne.symm hne)
  rw [hsnap]
  simp only [restoreLinkingSessionSnapshot, hbeq, Bool.and_false, strTruthy]
  norm_num
  rw [if_neg (by decide : ¬("supabase" = ""))]
  obtain ⟨hses2, hfc2, -⟩ :=
    setSession_supabase_proj stX (normalizeSupabaseSessionCore raw) now2
  refine ⟨rfl, ?_⟩
  rw [fetchProfile_session_frame _ rl outcomes now2 hfc2, hses2,
    normalizeSupabaseSessionCore_idem raw p htok hsub]
  exact hses.symm

/-- Restoring after linking the SAME provider as the snapshot only
refreshes the profile (the session is untouched when the health failure
count was 0) and reports that no restore happened. -/
theorem restore_sameLink_profile_only (stX : StoreState) (sess : Session)
    (pv : String) (rl : RLStorage) (outcomes : List FetchOutcome) (now : Nat)
    (hpv : pv ≠ "") (hfc : stX.sessionHealth.failureCount = 0) :
    restoreLinkingSessionSnapshot stX
        (some { session := some sess, provider := some pv })
        (some pv) rl outcomes now
      = ((fetchProfile stX rl outcomes now).1, false) ∧
    (restoreLinkingSessionSnapshot stX
        (some { session := some sess, provider := some pv })
        (some pv) rl outcomes now).1.normalizedSession
      = stX.normalizedSession := by
  have heq : restoreLinkingSessionSnapshot stX
      (some { session := some sess, provider := some pv })
      (some pv) rl outcomes now
      = ((fetchProfile stX rl outcomes now).1, false) := by
    simp [restoreLinkingSessionSnapshot, strTruthy, hpv]
  refine ⟨heq, ?_⟩
  rw [heq]
  exact fetchProfile_session_frame stX rl outcomes now hfc

/-- An absent or incomplete snapshot (no session, or a falsy provider)
makes the restore a no-op reporting that no restore happened. -/
theorem restore_incomplete_noop (stX : StoreState) (lp pv pv2 : Option String)
    (sess : Session) (rl : RLStorage) (outcomes : List FetchOutcome)
    (now : Nat) (hpv : strTruthy pv = false) :
    restoreLinkingSessionSnapshot stX none lp rl outcomes now = (stX, false) ∧
    restoreLinkingSessionSnapshot stX
        (some { session := none, provider := pv2 }) lp rl outcomes now
      = (stX, false) ∧
    restoreLinkingSessionSnapshot stX
        (some { session := some sess, provider := pv }) lp rl outcomes now
      = (stX, false) := by
  refine ⟨rfl, rfl, ?_⟩
  simp [restoreLinkingSessionSnapshot, hpv]

/-- Counterexample to C9 as stated: `exStore` is a reachable store (it
adopted a raw supabase session whose access token is NOT a decodable JWT,
so the normalizer derived the user from `session.user` and its metadata).
`restore(store, create(store), null)` with no linking performed does NOT
leave the session unchanged: `setSession` re-normalizes the snapshot, the
second pass finds no `user_metadata` on the already-normalized user, and
the display name falls back from the metadata name "Alice" to the email
local part "a". -/
theorem C9_roundtrip_changes_session_cex :
    (restoreLinkingSessionSnapshot exStore
        (some (createLinkingSessionSnapshot exStore))
        none exRL [.ok exPayload] 5).1.normalizedSession
      ≠ exStore.normalizedSession ∧
    ((exStore.normalizedSession.bind (fun s => s.user)).map (fun u => u.name))
      = some (some "Alice") ∧
    (((restoreLinkingSessionSnapshot exStore
        (some (createLinkingSessionSnapshot exStore))
        none exRL [.ok exPayload] 5).1.normalizedSession.bind
          (fun s => s.user)).map (fun u => u.name))
      = some (some "a") := by
  decide

/-- C9 as amended: (a) the no-linking round trip
`restore(store, create(store), null)` leaves the stored session unchanged
PROVIDED the adopted supabase session's access token is a decodable JWT
with a truthy subject claim (the restore re-normalizes the snapshot, so
for a session whose token does not decode the round trip can alter the
session — see the counterexample); (b) under the same proviso, restoring
after linking a different provider re-sets the snapshot's captured
session on the post-linking store and reports a restore; (c) restoring
after linking the same provider as the snapshot only refreshes the
profile, leaves the session untouched (when the health failure count was
0) and reports no restore; (d) an absent or incomplete snapshot is a
no-op reporting no restore. -/
theorem C9_linking_snapshot_roundtrip :
    (∀ (st : StoreState) (raw : Session) (p : TokenPayload) (now now2 : Nat)
        (rl : RLStorage) (outcomes : List FetchOutcome),
      raw.access_token = some (.jwt p) → strTruthy p.sub = true →
      (restoreLinkingSessionSnapshot
          (setSession st (some raw) (some "supabase") now).1
          (some (createLinkingSessionSnapshot
            (setSession st (some raw) (some "supabase") now).1))
          none rl outcomes now2).1.normalizedSession
        = (setSession st (some raw) (some "supabase") now).1.normalizedSession) ∧
    (∀ (st stX : StoreState) (raw : Session) (p : TokenPayload)
        (now now2 : Nat) (rl : RLStorage) (outcomes : List FetchOutcome)
        (lp : Option String),
      raw.access_token = some (.jwt p) → strTruthy p.sub = true →
      strTruthy lp = true → lp ≠ some "supabase" →
      (restoreLinkingSessionSnapshot stX
          (some (createLinkingSessionSnapshot
            (setSession st (some raw) (some "supabase") now).1))
          lp rl outcomes now2).2 = true ∧
      (restoreLinkingSessionSnapshot stX
          (some (createLinkingSessionSnapshot
            (setSession st (some raw) (some "supabase") now).1))
          lp rl outcomes now2).1.normalizedSession
        = (setSession st (some raw) (some "supabase") now).1.normalizedSession) ∧
    (∀ (stX : StoreState) (sess : Session) (pv : String) (rl : RLStorage)
        (outcomes : List FetchOutcome) (now : Nat),
      pv ≠ "" → stX.sessionHealth.failureCount = 0 →
      restoreLinkingSessionSnapshot stX
          (some { session := some sess, provider := some pv })
          (some pv) rl outcomes now
        = ((fetchProfile stX rl outcomes now).1, false) ∧
      (restoreLinkingSessionSnapshot stX
          (some { session := some sess, provider := some pv })
          (some pv) rl outcomes now).1.normalizedSession
        = stX.normalizedSession) ∧
    (∀ (stX : StoreState) (lp pv pv2 : Option String) (sess : Session)
        (rl : RLStorage) (outcomes : List FetchOutcome) (now : Nat),
      strTruthy pv = false →
      restoreLinkingSessionSnapshot stX none lp rl outcomes now = (stX, false) ∧
      restoreLinkingSessionSnapshot stX
          (some { session := none, provider := pv2 }) lp rl outcomes now
        = (stX, false) ∧
      restoreLinkingSessionSnapshot stX
          (some { session := some sess, provider := pv }) lp rl outcomes now
        = (stX, false)) :=
  ⟨fun st raw p now now2 rl outcomes htok hsub =>
      restore_noLink_preserves st raw p now now2 rl outcomes htok hsub,
   fun st stX raw p now now2 rl outcomes lp htok hsub hlp hne =>
      restore_diffLink_resets st stX raw p now now2 rl outcomes lp htok hsub
        hlp hne,
   fun stX sess pv rl outcomes now hpv hfc =>
      restore_sameLink_profile_only stX sess pv rl outcomes now hpv hfc,
   fun stX lp pv pv2 sess rl outcomes now hpv =>
      restore_incomplete_noop stX lp pv pv2 sess rl outcomes now hpv⟩

/-- Witness for the amended C9 on concrete data: a fresh store adopting
`exJwt1`, the linked providers `google` (different) and `supabase`
(same), and incomplete snapshots. -/
theorem C9_linking_snapshot_roundtrip_w :
    ((restoreLinkingSessionSnapshot
        (setSession {} (some exJwt1) (some "supabase") 0).1
        (some (createLinkingSessionSnapshot
          (setSession {} (some exJwt1) (some "supabase") 0).1))
        none exRL [.ok exPayload] 1).1.normalizedSession
      = (setSession {} (some exJwt1) (some "supabase") 0).1.normalizedSession) ∧
    ((restoreLinkingSessionSnapshot exStore
        (some (createLinkingSessionSnapshot
          (setSession {} (some exJwt1) (some "supabase") 0).1))
        (some "google") exRL [.ok exPayload] 1).2 = true) ∧
    (restoreLinkingSessionSnapshot exStore
        (some { session := some exJwt1, provider := some "google" })
        (some "google") exRL [.ok exPayload] 1
      = ((fetchProfile exStore exRL [.ok exPayload] 1).1, false)) ∧
    (restoreLinkingSessionSnapshot exStore none none exRL [.ok exPayload] 1
      = (exStore, false)) :=
  ⟨C9_linking_snapshot_roundtrip.1 {} exJwt1 exTok1 0 1 exRL [.ok exPayload]
      rfl (by decide),
   (C9_linking_snapshot_roundtrip.2.1 {} exStore exJwt1 exTok1 0 1 exRL
      [.ok exPayload] (some "google") rfl (by decide) (by decide)
      (by decide)).1,
   (C9_linking_snapshot_roundtrip.2.2.1 exStore exJwt1 "google" exRL
      [.ok exPayload] 1 (by decide) (by decide)).1,
   (C9_linking_snapshot_roundtrip.2.2.2 exStore none (some "") none exJwt1
      exRL [.ok exPayload] 1 (by decide)).1⟩

end JskitAuth
